import Mathlib

/-!
Verification development for the WIDS feature extractor
(`feature_extractor_api.py`): a shallow embedding of its data model and
operations, followed by theorems about the embedded code.

Modelling conventions:
  * Python `None` is `JVal.null`; a JSON value is a `JVal`.
  * a device record (Python `dict`) is an association list with
    first-match lookup, like `dict.get`;
  * Python truthiness (`if x:`) is `JVal.truthy` / `pyStrTruthy`;
  * a UTC instant is its (exact, rational) epoch-seconds value; the
    ISO-8601 rendering produced by the code is injective on instants, so
    instants model the produced strings faithfully;
  * the ambient clock (`datetime.now`) is an explicit parameter;
  * exceptions are `Except String`; the `try/except` of the main loop is
    an explicit match on the body's result.
-/

namespace WIDS

/-- A JSON value, as delivered by the Kismet REST endpoint. Numbers are
modelled exactly (integers); epoch values that arrive as decimal strings
are handled by the string parser below. -/
inductive JVal where
  | null
  | bool (b : Bool)
  | num (n : Int)
  | str (s : String)
  | obj (fields : List (String × JVal))

/-- Python truthiness of a JSON value (`if x:`): `None`, `False`, `0`,
the empty string and the empty object are falsy. -/
def JVal.truthy : JVal → Bool
  | .null => false
  | .bool b => b
  | .num n => n != 0
  | .str s => s != ""
  | .obj fields => !fields.isEmpty

/-- A device record: a Python dict from string keys to JSON values. -/
abbrev Device := List (String × JVal)

/-- `device.get(key)`: first-match lookup, `none` when the key is absent. -/
def dget (d : Device) (k : String) : Option JVal :=
  (d.find? (fun kv => kv.1 == k)).map (·.2)

/-- `device.get(key, default)`. -/
def dgetD (d : Device) (k : String) (default : JVal) : JVal :=
  (dget d k).getD default

/-- Result of Python `float(x)` when it succeeds: a finite rational, an
infinity, or a NaN (the sign of an infinity is irrelevant downstream, so
infinities are collapsed). -/
inductive PyFloatVal where
  | finite (q : ℚ)
  | infinite
  | nan

/-- Decimal digit test. -/
def isDigit (c : Char) : Bool := '0' ≤ c && c ≤ '9'

/-- Numeric value of a list of decimal digits. -/
def digitsVal (l : List Char) : ℕ :=
  l.foldl (fun a c => 10 * a + (c.toNat - 48)) 0

/-- Optional exponent suffix of a Python float literal (`e`/`E`, optional
sign, digits); `none` when the remaining characters are not a valid
suffix. An empty remainder is the (valid) absence of an exponent. -/
def parseExpSuffix (mant : ℚ) (l : List Char) : Option ℚ :=
  match l with
  | [] => some mant
  | c :: rest =>
    if c == 'e' || c == 'E' then
      let (sign, rest2) : ℤ × List Char :=
        match rest with
        | '+' :: r => (1, r)
        | '-' :: r => (-1, r)
        | r => (1, r)
      let ds := rest2.takeWhile isDigit
      let rem := rest2.dropWhile isDigit
      if ds.isEmpty || !rem.isEmpty then none
      else some (mant * (10 : ℚ) ^ (sign * (digitsVal ds : ℤ)))
    else none

/-- Unsigned mantissa (with optional fraction and exponent) of a Python
float literal: `digits`, `digits.digits`, `.digits`, `digits.`, each with
an optional exponent; at least one mantissa digit is required. -/
def parseMantissa (l : List Char) : Option ℚ :=
  let ip := l.takeWhile isDigit
  let r1 := l.dropWhile isDigit
  match r1 with
  | '.' :: r2 =>
    let fp := r2.takeWhile isDigit
    let r3 := r2.dropWhile isDigit
    if ip.isEmpty && fp.isEmpty then none
    else parseExpSuffix ((digitsVal ip : ℚ) + (digitsVal fp : ℚ) / (10 : ℚ) ^ fp.length) r3
  | _ => if ip.isEmpty then none else parseExpSuffix (digitsVal ip : ℚ) r1

/-- Unsigned part of a Python float literal: `inf`/`infinity`/`nan`
(case-insensitive) or a decimal mantissa. -/
def parseUnsignedFloat (l : List Char) : Option PyFloatVal :=
  let low := l.map Char.toLower
  if low == "inf".data || low == "infinity".data then some .infinite
  else if low == "nan".data then some .nan
  else (parseMantissa l).map .finite

/-- Whitespace stripped by Python `float(str)`. -/
def isPySpace (c : Char) : Bool := c == ' ' || c == '\t' || c == '\n' || c == '\r'

/-- Python `float(s)` on a string: strip whitespace, optional sign, then
an `inf`/`nan` keyword or a decimal literal; `none` models the
`ValueError` raised on anything else. (Digit-group underscores, a niche
Python literal feature, are not modelled.) -/
def pyParseFloat (s : String) : Option PyFloatVal :=
  let l := s.data.dropWhile isPySpace
  let l := (l.reverse.dropWhile isPySpace).reverse
  match l with
  | '+' :: r => parseUnsignedFloat r
  | '-' :: r =>
    (parseUnsignedFloat r).map fun v =>
      match v with
      | .finite q => .finite (-q)
      | v => v
  | r => parseUnsignedFloat r

/-- Python `float(x)` on a JSON value: numbers and booleans convert,
strings are parsed, `None` and objects raise (`none`). -/
def pyFloatOf : JVal → Option PyFloatVal
  | .null => none
  | .bool b => some (.finite (if b then 1 else 0))
  | .num n => some (.finite (n : ℚ))
  | .str s => pyParseFloat s
  | .obj _ => none

/-- Range accepted by `datetime.fromtimestamp(_, tz=utc)`: epoch values
of years 1..9999 (sub-second slack at the upper bound is immaterial to
every claim); outside it the call raises. -/
def tsInRange (q : ℚ) : Bool := -62135596800 ≤ q && q ≤ 253402300799

/-- `datetime.fromtimestamp(v, tz=utc)` as a partial function to the
instant it denotes: defined only for finite, in-range values. -/
def fromtimestampUtc : PyFloatVal → Option ℚ
  | .finite q => if tsInRange q then some q else none
  | _ => none

/-- The full parse performed inside `epoch_to_iso`'s `try` block:
`datetime.fromtimestamp(float(ts), tz=timezone.utc)`. -/
def epochParse (ts : JVal) : Option ℚ :=
  (pyFloatOf ts).bind fromtimestampUtc

/-- `epoch_to_iso(ts)`: the instant of the epoch value when the `try`
body succeeds, else the current time (`now`, the explicit clock). -/
def epoch_to_iso (ts : JVal) (now : ℚ) : ℚ :=
  match epochParse ts with
  | some q => q
  | none => now

/-- One summand of the entropy loop: `-p * log2(p)` for the probability
`p = count/length` of character `c` in `l`. -/
noncomputable def entTerm (l : List Char) (c : Char) : ℝ :=
  -(((l.count c : ℝ) / (l.length : ℝ)) * Real.logb 2 ((l.count c : ℝ) / (l.length : ℝ)))

/-- `ssid_entropy(ssid)`: 0.0 for a falsy (empty) string, else the sum of
`-p * log2(p)` over the distinct characters of the string (the keys of
the `freq` dict), with `p = count/length`. Python iterates a `str` by
code point, so `List Char` is the faithful unit of iteration. -/
noncomputable def ssid_entropy (s : String) : ℝ :=
  if s == "" then 0
  else ∑ c in s.data.toFinset, entTerm s.data c

/-- Modelled from the spec's words, for comparison with `ssid_entropy`:
the Shannon entropy (base 2) of the character-frequency distribution —
"count occurrences of each distinct character, compute probability =
count/length for each, sum `-p * log2(p)` over distinct characters". -/
noncomputable def shannonSpecEntropy (s : String) : ℝ :=
  ∑ c in s.data.toFinset,
    -(((s.data.count c : ℝ) / (s.data.length : ℝ)) *
      Real.logb 2 ((s.data.count c : ℝ) / (s.data.length : ℝ)))

/-- The string content of a JSON value. A truthy non-string in a name
field would make the Python entropy loop raise `TypeError`; Kismet name
fields are strings, so only the string case carries content. -/
def jvalStr : JVal → String
  | .str s => s
  | _ => ""

/-- Static sensor identity, read from the environment at startup. -/
structure Config where
  sensor_id : String
  sensor_site : String

/-- The feature document built per qualifying device: the Python dict
literal of `build_feature_doc`, with its `None`-valued optionals as
`JVal.null` and its timestamp strings as instants. -/
structure FeatureDoc where
  timestamp : ℚ
  sensor_id : String
  sensor_site : String
  bssid : JVal
  ssid : JVal
  ssid_entropy : ℝ
  manuf : JVal
  channel : JVal
  phyname : JVal
  first_seen : Option ℚ
  last_seen : Option ℚ
  rssi_last : JVal
  rssi_min : JVal
  rssi_max : JVal
  rssi_mean : JVal
  client_count : JVal
  deauth_count_approx : JVal
  probe_req_count_approx : JVal

/-- The `base` helper: `device.get("kismet.device.base." + field)`,
flattened-dotted-key lookup with default `None`. -/
def base (d : Device) (field : String) : JVal :=
  dgetD d ("kismet.device.base." ++ field) .null

/-- `build_feature_doc(device, sensor_time_iso)`: `None` when the
flattened MAC field is falsy, else the complete feature document.
`now` is the explicit clock consumed by `epoch_to_iso`'s fallback. -/
noncomputable def build_feature_doc (cfg : Config) (device : Device)
    (sensor_time_iso : ℚ) (now : ℚ) : Option FeatureDoc :=
  let bssid := base device "macaddr"
  if !bssid.truthy then none
  else
    let nameV := base device "name"
    let ssid := if nameV.truthy then nameV else base device "commonname"
    let manuf := base device "manuf"
    let channel := base device "channel"
    let phyname := base device "phyname"
    let first_time := base device "first_time"
    let last_time := base device "last_time"
    let rssi_last := dgetD device "kismet.common.signal.last" .null
    let rssi_min := dgetD device "kismet.common.signal.min" .null
    let rssi_max := dgetD device "kismet.common.signal.max" .null
    let rssi_avg := dgetD device "kismet.common.signal.avg" .null
    let num_clients := dgetD device "kismet.device.base.num_clients" (.num 0)
    let ssid_ent : ℝ := if ssid.truthy then ssid_entropy (jvalStr ssid) else 0
    some
      { timestamp := if last_time.truthy then epoch_to_iso last_time now else sensor_time_iso
        sensor_id := cfg.sensor_id
        sensor_site := cfg.sensor_site
        bssid := bssid
        ssid := ssid
        ssid_entropy := ssid_ent
        manuf := manuf
        channel := channel
        phyname := phyname
        first_seen := if first_time.truthy then some (epoch_to_iso first_time now) else none
        last_seen := if last_time.truthy then some (epoch_to_iso last_time now) else none
        rssi_last := rssi_last
        rssi_min := rssi_min
        rssi_max := rssi_max
        rssi_mean := rssi_avg
        client_count := num_clients
        deauth_count_approx := .null
        probe_req_count_approx := .null }

/-- Python truthiness of an optional environment string (`os.getenv`
yields `None` when the variable is unset). -/
def pyStrTruthy : Option String → Bool
  | none => false
  | some s => s != ""

/-- The constructor arguments of the index-store client that
`get_es_client` chooses: URL, optional basic credentials, and whether
TLS certificates are verified. -/
structure ESClientArgs where
  url : String
  basic_auth : Option (String × String)
  verify_certs : Bool
  deriving Repr, DecidableEq

/-- The environment configuration `get_es_client` reads. -/
structure ESConfig where
  es_url : String
  es_username : Option String
  es_password : Option String
  deriving Repr, DecidableEq

/-- `get_es_client()`: with truthy username and password the client gets
basic credentials, otherwise none; both branches pass
`verify_certs=False`. -/
def get_es_client (cfg : ESConfig) : ESClientArgs :=
  if pyStrTruthy cfg.es_username && pyStrTruthy cfg.es_password then
    { url := cfg.es_url
      basic_auth := some (cfg.es_username.getD "", cfg.es_password.getD "")
      verify_certs := false }
  else
    { url := cfg.es_url
      basic_auth := none
      verify_certs := false }

/-- Exceptions are modelled by their message. -/
abbrev Err := String

/-- One action of the bulk request: destination index, document, and the
optional ingest-pipeline directive. -/
structure BulkAction where
  index : String
  source : FeatureDoc
  pipeline : Option String

/-- The action list `bulk_index` assembles: one action per document,
tagged with `ES_INDEX` and, when `ES_PIPELINE` is truthy, the pipeline. -/
def mkActions (esIndex : String) (esPipeline : Option String)
    (docs : List FeatureDoc) : List BulkAction :=
  docs.map fun doc =>
    { index := esIndex
      source := doc
      pipeline := if pyStrTruthy esPipeline then esPipeline else none }

/-- `bulk_index(es, docs)`: early return on an empty batch, else one
`helpers.bulk` network call whose outcome is `bulkOutcome`. The second
component records whether that bulk-write call was issued. -/
def bulk_index (docs : List FeatureDoc) (bulkOutcome : Except Err Unit) :
    Except Err Unit × Bool :=
  if docs.isEmpty then (.ok (), false)
  else (bulkOutcome, true)

/-- The environment one cycle of the main loop runs against: the outcome
of the upstream fetch, the outcome of the bulk write were it issued, the
cycle-start timestamp, and the ambient clock. -/
structure CycleEnv where
  fetch : Except Err (List Device)
  bulkOutcome : Except Err Unit
  sensor_now : ℚ
  clock_now : ℚ

/-- What one iteration of the `while True` loop did: whether a
bulk-write call was issued, whether the `except` clause caught an
in-cycle error, and whether `time.sleep` was reached. -/
structure IterObs where
  bulkCalled : Bool
  errorCaught : Bool
  slept : Bool
  deriving Repr, DecidableEq

/-- The body of the `try` block of one cycle: fetch, transform every
device, and deliver a non-empty batch. Returns the body's outcome
paired with whether a bulk-write call was issued before it ended. -/
noncomputable def cycleBody (cfg : Config) (env : CycleEnv) :
    Except Err Unit × Bool :=
  match env.fetch with
  | .error e => (.error e, false)
  | .ok devices =>
    let docs := devices.filterMap
      (fun dev => build_feature_doc cfg dev env.sensor_now env.clock_now)
    if !docs.isEmpty then bulk_index docs env.bulkOutcome
    else (.ok (), false)

/-- One full iteration of the `while True` loop: the `try` body, then
the `except Exception` handler (which catches every modelled in-cycle
error), then `time.sleep`. An `.error` result would mean an exception
escaped the iteration, skipping the sleep and ending the loop. -/
noncomputable def loopIteration (cfg : Config) (env : CycleEnv) :
    Except Err IterObs :=
  let body := cycleBody cfg env
  let handled : Except Err Bool :=
    match body.1 with
    | .ok _ => .ok false
    | .error _ => .ok true
  match handled with
  | .error e => .error e
  | .ok caught => .ok { bulkCalled := body.2, errorCaught := caught, slept := true }

/-- The loop run over a finite prefix of cycle environments: it stops
early only if some iteration lets an exception escape. -/
noncomputable def runLoop (cfg : Config) (envs : List CycleEnv) :
    Except Err (List IterObs) :=
  match envs with
  | [] => .ok []
  | env :: rest =>
    match loopIteration cfg env with
    | .error e => .error e
    | .ok obs =>
      match runLoop cfg rest with
      | .error e => .error e
      | .ok obss => .ok (obs :: obss)

/-- Modelled from the spec: a record carries a non-empty hardware
address under the flattened-dotted-key convention. -/
def hasMacFlattened (d : Device) : Bool :=
  (base d "macaddr").truthy

/-- Modelled from the spec: a record carries a non-empty hardware
address under the nested-object convention — a `kismet.device.base`
sub-object holding a truthy `macaddr` entry. -/
def hasMacNested (d : Device) : Bool :=
  match dget d "kismet.device.base" with
  | some (.obj fields) =>
    match (fields.find? (fun kv => kv.1 == "macaddr")).map (·.2) with
    | some v => v.truthy
    | none => false
  | _ => false

/-- Modelled from the spec: a record carries a non-empty hardware
address under either of the two field-naming conventions. -/
def hasMacEitherConvention (d : Device) : Bool :=
  hasMacFlattened d || hasMacNested d

/-- A concrete sensor configuration used by concrete instantiations. -/
def cfg0 : Config := { sensor_id := "pi", sensor_site := "lab" }

/-- A record whose only field is a nested-object hardware address. -/
def devNestedMac : Device :=
  [("kismet.device.base", .obj [("macaddr", .str "AA:BB:CC:DD:EE:FF")])]

/-- A record carrying only the flattened hardware address. -/
def devMac : Device :=
  [("kismet.device.base.macaddr", .str "AA:BB:CC:DD:EE:FF")]

/-- The feature document `build_feature_doc` produces for `devMac` with
cycle timestamp 0: every optional attribute defaulted. -/
noncomputable def docMac : FeatureDoc :=
  { timestamp := 0
    sensor_id := "pi"
    sensor_site := "lab"
    bssid := .str "AA:BB:CC:DD:EE:FF"
    ssid := .null
    ssid_entropy := 0
    manuf := .null
    channel := .null
    phyname := .null
    first_seen := none
    last_seen := none
    rssi_last := .null
    rssi_min := .null
    rssi_max := .null
    rssi_mean := .null
    client_count := .num 0
    deauth_count_approx := .null
    probe_req_count_approx := .null }

/-- A record whose `name` field is present but empty, with a non-empty
`commonname`. -/
def devEmptyName : Device :=
  [("kismet.device.base.macaddr", .str "AA:BB:CC:DD:EE:FF"),
   ("kismet.device.base.name", .str ""),
   ("kismet.device.base.commonname", .str "FallbackNet")]

/-- A record with a truthy `name` field. -/
def devNamed : Device :=
  [("kismet.device.base.macaddr", .str "AA:BB:CC:DD:EE:FF"),
   ("kismet.device.base.name", .str "CoffeeShop_5G")]

/-- A record whose epoch fields are present but falsy (`0` and `""`). -/
def devFalsyTimes : Device :=
  [("kismet.device.base.macaddr", .str "AA:BB:CC:DD:EE:FF"),
   ("kismet.device.base.last_time", .num 0),
   ("kismet.device.base.first_time", .str "")]

/-- A cycle environment whose upstream fetch raises. -/
def envFetchFail : CycleEnv :=
  { fetch := .error "requests.exceptions.ConnectTimeout"
    bulkOutcome := .ok ()
    sensor_now := 0
    clock_now := 0 }

/-- C1 (counterexample): a record carrying a non-empty hardware address
under the nested-object convention is nevertheless skipped, so skipping
is not equivalent to lacking a MAC "under either of the two field-naming
conventions". -/
theorem nested_mac_record_skipped :
    hasMacEitherConvention devNestedMac = true ∧
    build_feature_doc cfg0 devNestedMac 0 0 = none :=
  ⟨rfl, rfl⟩

/-- C1 (amended): `build_feature_doc` returns the skip sentinel if and
only if the record lacks a truthy hardware address under the
flattened-dotted-key convention; records whose MAC appears only in
nested-object form are skipped too. When it does not skip it returns a
complete `FeatureDoc`. -/
theorem build_feature_doc_skip_iff_flat_mac (cfg : Config) (d : Device) (t now : ℚ) :
    build_feature_doc cfg d t now = none ↔ hasMacFlattened d = false := by
  unfold build_feature_doc hasMacFlattened
  cases h : (base d "macaddr").truthy <;> simp [h]

/-- C6 (counterexample): no configuration constructs the index-store
client with certificate verification enabled — `verify_certs=False` is
hardcoded in both construction branches, so verification is not a
configuration knob. -/
theorem no_config_enables_verify :
    ¬ ∃ cfg : ESConfig, (get_es_client cfg).verify_certs = true := by
  rintro ⟨cfg, h⟩
  unfold get_es_client at h
  split at h <;> simp at h

/-- C6 (amended): TLS certificate verification is disabled for every
configuration: the client is always constructed with
`verify_certs=False`; only the credentials vary with configuration. -/
theorem get_es_client_always_disables_verify (cfg : ESConfig) :
    (get_es_client cfg).verify_certs = false := by
  unfold get_es_client
  split <;> rfl

/-- C7: every feature document `build_feature_doc` produces carries the
two reserved fields `deauth_count_approx` and `probe_req_count_approx`
as `None` — no value is ever computed or attached for them. -/
theorem reserved_fields_always_null (cfg : Config) (d : Device) (t now : ℚ)
    (doc : FeatureDoc) (h : build_feature_doc cfg d t now = some doc) :
    doc.deauth_count_approx = JVal.null ∧ doc.probe_req_count_approx = JVal.null := by
  unfold build_feature_doc at h
  cases hm : (base d "macaddr").truthy
  · simp [hm] at h
  · simp [hm] at h
    subst h
    exact ⟨rfl, rfl⟩

/-- C7 (witness): the reserved-field theorem applied to the concrete
MAC-only record. -/
theorem reserved_fields_always_null_witness :
    docMac.deauth_count_approx = JVal.null ∧ docMac.probe_req_count_approx = JVal.null :=
  reserved_fields_always_null cfg0 devMac 0 0 docMac rfl

/-- C8: a record with a truthy hardware address whose name, manufacturer,
channel, signal and client-count lookups all resolve to their defaults
yields a feature document (not skip) with those fields defaulted,
`ssid_entropy = 0` and `client_count = 0`. -/
theorem mac_only_record_gets_defaults (cfg : Config) (d : Device) (t now : ℚ)
    (hmac : (base d "macaddr").truthy = true)
    (hname : base d "name" = JVal.null)
    (hcommon : base d "commonname" = JVal.null)
    (hmanuf : base d "manuf" = JVal.null)
    (hchan : base d "channel" = JVal.null)
    (hsl : dgetD d "kismet.common.signal.last" JVal.null = JVal.null)
    (hsmin : dgetD d "kismet.common.signal.min" JVal.null = JVal.null)
    (hsmax : dgetD d "kismet.common.signal.max" JVal.null = JVal.null)
    (hsavg : dgetD d "kismet.common.signal.avg" JVal.null = JVal.null)
    (hnc : dgetD d "kismet.device.base.num_clients" (JVal.num 0) = JVal.num 0) :
    (build_feature_doc cfg d t now).isSome = true ∧
    (build_feature_doc cfg d t now).map (fun doc => doc.ssid) = some JVal.null ∧
    (build_feature_doc cfg d t now).map (fun doc => doc.manuf) = some JVal.null ∧
    (build_feature_doc cfg d t now).map (fun doc => doc.channel) = some JVal.null ∧
    (build_feature_doc cfg d t now).map (fun doc => doc.rssi_last) = some JVal.null ∧
    (build_feature_doc cfg d t now).map (fun doc => doc.rssi_min) = some JVal.null ∧
    (build_feature_doc cfg d t now).map (fun doc => doc.rssi_max) = some JVal.null ∧
    (build_feature_doc cfg d t now).map (fun doc => doc.rssi_mean) = some JVal.null ∧
    (build_feature_doc cfg d t now).map (fun doc => doc.ssid_entropy) = some 0 ∧
    (build_feature_doc cfg d t now).map (fun doc => doc.client_count) = some (JVal.num 0) := by
  refine ⟨?_, ?_, ?_, ?_, ?_, ?_, ?_, ?_, ?_, ?_⟩ <;>
    simp [build_feature_doc, hmac, hname, hcommon, hmanuf, hchan, hsl, hsmin, hsmax, hsavg,
      hnc]
  simp [JVal.truthy]

/-- C8 (witness): the defaults theorem applied to the concrete MAC-only
record. -/
theorem mac_only_record_gets_defaults_witness :
    (build_feature_doc cfg0 devMac 0 0).isSome = true ∧
    (build_feature_doc cfg0 devMac 0 0).map (fun doc => doc.ssid) = some JVal.null ∧
    (build_feature_doc cfg0 devMac 0 0).map (fun doc => doc.manuf) = some JVal.null ∧
    (build_feature_doc cfg0 devMac 0 0).map (fun doc => doc.channel) = some JVal.null ∧
    (build_feature_doc cfg0 devMac 0 0).map (fun doc => doc.rssi_last) = some JVal.null ∧
    (build_feature_doc cfg0 devMac 0 0).map (fun doc => doc.rssi_min) = some JVal.null ∧
    (build_feature_doc cfg0 devMac 0 0).map (fun doc => doc.rssi_max) = some JVal.null ∧
    (build_feature_doc cfg0 devMac 0 0).map (fun doc => doc.rssi_mean) = some JVal.null ∧
    (build_feature_doc cfg0 devMac 0 0).map (fun doc => doc.ssid_entropy) = some 0 ∧
    (build_feature_doc cfg0 devMac 0 0).map (fun doc => doc.client_count) = some (JVal.num 0) :=
  mac_only_record_gets_defaults cfg0 devMac 0 0 rfl rfl rfl rfl rfl rfl rfl rfl rfl rfl

/-- C9 (counterexample): the preferred `name` key is present (with the
empty string), yet its value is not used — the `or` fallback fires on
any falsy value, not only on absence. -/
theorem empty_name_present_not_used :
    dget devEmptyName "kismet.device.base.name" = some (JVal.str "") ∧
    (build_feature_doc cfg0 devEmptyName 0 0).map (fun doc => doc.ssid) =
      some (JVal.str "FallbackNet") :=
  ⟨rfl, rfl⟩

/-- C9 (amended): the display name prefers the `name` key exactly when
its value is truthy (non-empty); when `name` is absent or falsy the
`commonname` value (or absence) is used, and the fallback is never an
error. -/
theorem ssid_prefers_truthy_name_falls_back (cfg : Config) (d : Device) (t now : ℚ)
    (hmac : (base d "macaddr").truthy = true) :
    ((base d "name").truthy = true →
      (build_feature_doc cfg d t now).map (fun doc => doc.ssid) = some (base d "name")) ∧
    ((base d "name").truthy = false →
      (build_feature_doc cfg d t now).map (fun doc => doc.ssid) = some (base d "commonname")) := by
  constructor <;> intro hn <;> simp [build_feature_doc, hmac, hn]

/-- C9 (witness): the display-name theorem applied to a record with a
truthy `name` and to a record without one. -/
theorem ssid_prefers_truthy_name_falls_back_witness :
    (build_feature_doc cfg0 devNamed 0 0).map (fun doc => doc.ssid) = some (base devNamed "name") ∧
    (build_feature_doc cfg0 devMac 0 0).map (fun doc => doc.ssid) = some (base devMac "commonname") :=
  ⟨(ssid_prefers_truthy_name_falls_back cfg0 devNamed 0 0 rfl).1 rfl,
   (ssid_prefers_truthy_name_falls_back cfg0 devMac 0 0 rfl).2 rfl⟩

/-- C10: a falsy (absent, zero, or empty) last-seen epoch field makes
the document timestamp fall back to the cycle timestamp and leaves
`last_seen` unset; likewise a falsy first-seen value leaves `first_seen`
unset — no conversion to a UTC instant happens. -/
theorem falsy_epoch_fields_treated_as_absent (cfg : Config) (d : Device) (t now : ℚ)
    (hmac : (base d "macaddr").truthy = true) :
    ((base d "last_time").truthy = false →
      (build_feature_doc cfg d t now).map (fun doc => doc.timestamp) = some t ∧
      (build_feature_doc cfg d t now).map (fun doc => doc.last_seen) = some none) ∧
    ((base d "first_time").truthy = false →
      (build_feature_doc cfg d t now).map (fun doc => doc.first_seen) = some none) := by
  constructor
  · intro hl
    constructor <;> simp [build_feature_doc, hmac, hl]
  · intro hf
    simp [build_feature_doc, hmac, hf]

/-- C10 (witness): the falsy-epoch theorem applied to a record whose
`last_time` is the present integer `0` and whose `first_time` is the
present empty string. -/
theorem falsy_epoch_fields_treated_as_absent_witness :
    dget devFalsyTimes "kismet.device.base.last_time" = some (JVal.num 0) ∧
    dget devFalsyTimes "kismet.device.base.first_time" = some (JVal.str "") ∧
    (build_feature_doc cfg0 devFalsyTimes 5 9).map (fun doc => doc.timestamp) = some 5 ∧
    (build_feature_doc cfg0 devFalsyTimes 5 9).map (fun doc => doc.last_seen) = some none ∧
    (build_feature_doc cfg0 devFalsyTimes 5 9).map (fun doc => doc.first_seen) = some none :=
  ⟨rfl, rfl,
   ((falsy_epoch_fields_treated_as_absent cfg0 devFalsyTimes 5 9 rfl).1 rfl).1,
   ((falsy_epoch_fields_treated_as_absent cfg0 devFalsyTimes 5 9 rfl).1 rfl).2,
   (falsy_epoch_fields_treated_as_absent cfg0 devFalsyTimes 5 9 rfl).2 rfl⟩

/-- C2: `epoch_to_iso` is total (never raises) and two-cased: when the
value converts through `float()` and `fromtimestamp` to an in-range
epoch quantity the output is the corresponding UTC instant, and on every
other input (`None`, non-numeric string, NaN/infinity, out-of-range
value, non-scalar) the output is the fallback current-time instant. -/
theorem epoch_to_iso_parse_or_fallback (ts : JVal) (now : ℚ) :
    (∀ q : ℚ, epochParse ts = some q → epoch_to_iso ts now = q) ∧
    (epochParse ts = none → epoch_to_iso ts now = now) := by
  constructor
  · intro q hq
    unfold epoch_to_iso
    rw [hq]
  · intro h
    unfold epoch_to_iso
    rw [h]

/-- C2 (witness): the normalizer theorem applied to a valid epoch, to
`None`, to a non-numeric string, to `"nan"`, and to an out-of-range
epoch. -/
theorem epoch_to_iso_parse_or_fallback_witness :
    epoch_to_iso (JVal.num 1700000000) 7 = 1700000000 ∧
    epoch_to_iso JVal.null 7 = 7 ∧
    epoch_to_iso (JVal.str "not a number") 7 = 7 ∧
    epoch_to_iso (JVal.str "nan") 7 = 7 ∧
    epoch_to_iso (JVal.num 999999999999999) 7 = 7 :=
  ⟨(epoch_to_iso_parse_or_fallback (JVal.num 1700000000) 7).1 1700000000 (by decide),
   (epoch_to_iso_parse_or_fallback JVal.null 7).2 rfl,
   (epoch_to_iso_parse_or_fallback (JVal.str "not a number") 7).2 (by decide),
   (epoch_to_iso_parse_or_fallback (JVal.str "nan") 7).2 rfl,
   (epoch_to_iso_parse_or_fallback (JVal.num 999999999999999) 7).2 (by decide)⟩

/-- Every iteration of the loop ends with the handler having absorbed
any in-cycle error and with the sleep reached. -/
theorem loopIteration_always_ok (cfg : Config) (env : CycleEnv) :
    ∃ o : IterObs, loopIteration cfg env = .ok o ∧ o.slept = true := by
  rcases h : cycleBody cfg env with ⟨res, called⟩
  cases res <;> simp [loopIteration, h]

/-- C4: over any finite prefix of cycles, whatever each cycle's fetch
and delivery outcomes are, no in-cycle error escapes the loop: every
cycle runs to completion, reaches the fixed-interval sleep, and the next
cycle starts — the loop neither terminates nor skips the sleep. -/
theorem loop_never_dies_and_always_sleeps (cfg : Config) (envs : List CycleEnv) :
    ∃ obss : List IterObs, runLoop cfg envs = .ok obss ∧
      obss.length = envs.length ∧ ∀ o ∈ obss, o.slept = true := by
  induction envs with
  | nil => exact ⟨[], rfl, rfl, by simp⟩
  | cons env rest ih =>
    obtain ⟨o, ho, hs⟩ := loopIteration_always_ok cfg env
    obtain ⟨obss, hrun, hlen, hall⟩ := ih
    refine ⟨o :: obss, ?_, ?_, ?_⟩
    · simp [runLoop, ho, hrun]
    · simp [hlen]
    · intro x hx
      rcases List.mem_cons.mp hx with h | h
      · subst h
        exact hs
      · exact hall x h

/-- C5: when the upstream fetch raises, the cycle aborts before any
bulk-write call, the error is caught at the cycle boundary, and the loop
sleeps and continues. -/
theorem fetch_failure_skips_bulk_and_continues (cfg : Config) (env : CycleEnv) (e : Err)
    (hfetch : env.fetch = .error e) :
    loopIteration cfg env =
      .ok { bulkCalled := false, errorCaught := true, slept := true } := by
  simp [loopIteration, cycleBody, hfetch]

/-- C5 (witness): the fetch-failure theorem applied to a concrete cycle
whose fetch raises a connect timeout. -/
theorem fetch_failure_skips_bulk_and_continues_witness :
    loopIteration cfg0 envFetchFail =
      .ok { bulkCalled := false, errorCaught := true, slept := true } :=
  fetch_failure_skips_bulk_and_continues cfg0 envFetchFail
    "requests.exceptions.ConnectTimeout" rfl

/-- Each entropy summand is non-negative: the probability lies in
`(0, 1]`, so its base-2 log is non-positive. -/
theorem entTerm_nonneg (l : List Char) (c : Char) (hc : c ∈ l) : 0 ≤ entTerm l c := by
  have hlen : 0 < (l.length : ℝ) := by
    exact_mod_cast List.length_pos.mpr (List.ne_nil_of_mem hc)
  have hcount : 0 < (l.count c : ℝ) := by
    exact_mod_cast List.count_pos_iff.mpr hc
  have hp0 : 0 < (l.count c : ℝ) / (l.length : ℝ) := div_pos hcount hlen
  have hp1 : (l.count c : ℝ) / (l.length : ℝ) ≤ 1 := by
    rw [div_le_one hlen]
    exact_mod_cast List.count_le_length c l
  have hlog : Real.logb 2 ((l.count c : ℝ) / (l.length : ℝ)) ≤ 0 :=
    Real.logb_nonpos (by norm_num) hp0.le hp1
  unfold entTerm
  nlinarith [hp0.le, hlog]

/-- An entropy summand vanishes exactly when its character accounts for
the whole string. -/
theorem entTerm_eq_zero_iff (l : List Char) (c : Char) (hc : c ∈ l) :
    entTerm l c = 0 ↔ l.count c = l.length := by
  have hlen : 0 < (l.length : ℝ) := by
    exact_mod_cast List.length_pos.mpr (List.ne_nil_of_mem hc)
  have hcount : 0 < (l.count c : ℝ) := by
    exact_mod_cast List.count_pos_iff.mpr hc
  have hp0 : 0 < (l.count c : ℝ) / (l.length : ℝ) := div_pos hcount hlen
  constructor
  · intro h
    have hpl : (l.count c : ℝ) / (l.length : ℝ) *
        Real.logb 2 ((l.count c : ℝ) / (l.length : ℝ)) = 0 := by
      unfold entTerm at h
      linarith
    rcases mul_eq_zero.mp hpl with h1 | h2
    · exact absurd h1 (ne_of_gt hp0)
    · rcases Real.logb_eq_zero.mp h2 with h | h | h | h | h | h
      · norm_num at h
      · norm_num at h
      · norm_num at h
      · exact absurd h (ne_of_gt hp0)
      · field_simp [ne_of_gt hlen] at h
        exact_mod_cast h
      · rw [h] at hp0
        norm_num at hp0
  · intro h
    unfold entTerm
    rw [h, div_self (ne_of_gt hlen), Real.logb_one]
    ring

/-- C3: `ssid_entropy` equals the Shannon entropy of the
character-frequency distribution, is non-negative for every string, and
vanishes exactly on the empty string or a string whose characters are
all identical. -/
theorem ssid_entropy_shannon_nonneg_zero_iff (s : String) :
    ssid_entropy s = shannonSpecEntropy s ∧
    0 ≤ ssid_entropy s ∧
    (ssid_entropy s = 0 ↔ s.data = [] ∨ ∀ a ∈ s.data, ∀ b ∈ s.data, a = b) := by
  by_cases hs : s = ""
  · subst hs
    refine ⟨by simp [ssid_entropy, shannonSpecEntropy], by simp [ssid_entropy], ?_⟩
    simp [ssid_entropy]
  · have hd : s.data ≠ [] := by
      intro h
      apply hs
      cases s with
      | mk data =>
        subst h
        rfl
    have hent : ssid_entropy s = ∑ c in s.data.toFinset, entTerm s.data c := by
      simp [ssid_entropy, hs]
    have hnn : 0 ≤ ssid_entropy s := by
      rw [hent]
      exact Finset.sum_nonneg fun c hc => entTerm_nonneg s.data c (List.mem_toFinset.mp hc)
    refine ⟨by simp [ssid_entropy, shannonSpecEntropy, hs, entTerm], hnn, ?_⟩
    rw [hent, or_iff_right hd,
      Finset.sum_eq_zero_iff_of_nonneg
        (fun c hc => entTerm_nonneg s.data c (List.mem_toFinset.mp hc))]
    constructor
    · intro h a ha b hb
      have hb' : s.data.count b = s.data.length :=
        (entTerm_eq_zero_iff s.data b hb).mp (h b (List.mem_toFinset.mpr hb))
      exact (List.count_eq_length.mp hb' a ha).symm
    · intro hall c hc
      refine (entTerm_eq_zero_iff s.data c (List.mem_toFinset.mp hc)).mpr ?_
      exact List.count_eq_length.mpr fun x hx => hall c (List.mem_toFinset.mp hc) x hx

end WIDS
